import Mathlib

/-!
Verification of the `reallesee/ag2` MCP tutorial notebooks.

The repository consists of two Jupyter notebooks:
`notebook/mcp/mcp_client.ipynb` (the MCP client guide, whose cell 4 embeds the
generated server script `mcp_server.py` as the string literal
`mcp_server_file_content`) and an unnamed MCP-proxy notebook (which defines the
illustrative `MCPProxy` stub class and several client connection cells).

This file gives a shallow embedding of the executable logic of those notebooks:
the server's tools `add` and `multiply`, the resource handler
`get_server_file` with its `files` table, the argparse transport argument,
the server-script writer, the `MCPProxy` stub, and the per-cell client
connection blocks (transport, session timeout, and the sequence of session
actions each cell awaits).
-/

namespace McpServer

/-- The `add` tool of the generated server (`mcp_server.py`):
`def add(a: int, b: int) -> int: return a + b`. -/
def add (a b : Int) : Int := a + b

/-- The `multiply` tool of the generated server (`mcp_server.py`):
`def multiply(a: int, b: int) -> int: return a * b`. -/
def multiply (a b : Int) : Int := a * b

/-- The server's file table:
`files = { "ag2": "AG has released 0.8.5 version on 2025-04-03" }`. -/
def files : List (String × String) :=
  [("ag2", "AG has released 0.8.5 version on 2025-04-03")]

/-- The resource handler `get_server_file` of the generated server:
`return files.get(name, f"File not found: {name}")` — a dictionary lookup
with an in-band default string. -/
def get_server_file (name : String) : String :=
  (files.lookup name).getD ("File not found: " ++ name)

/-- The `choices` list of the positional `transport` argument in the
generated server's `__main__` block:
`parser.add_argument("transport", choices=["stdio", "sse"], ...)`. -/
def transport_choices : List String := ["stdio", "sse"]

/-- Argparse semantics of the positional `transport` argument: a value in the
`choices` list parses successfully; any other value makes startup fail with an
argument error. -/
def parse_transport (arg : String) : Except String String :=
  if transport_choices.contains arg then Except.ok arg
  else Except.error ("argument transport: invalid choice: " ++ arg)

end McpServer

/-- The lines of the string literal `mcp_server_file_content` from cell 4 of
`notebook/mcp/mcp_client.ipynb`: the full text of the generated
`mcp_server.py` script. Literal brace characters are written with their
escape codes. -/
def mcp_server_file_lines : List String :=
  [ "# mcp_server.py"
  , "import argparse"
  , "from mcp.server.fastmcp import FastMCP"
  , ""
  , "mcp = FastMCP(\"McpServer\")"
  , ""
  , ""
  , "@mcp.tool()"
  , "def add(a: int, b: int) -> int:"
  , "    \"\"\"Add two numbers\"\"\""
  , "    return a + b"
  , ""
  , ""
  , "@mcp.tool()"
  , "def multiply(a: int, b: int) -> int:"
  , "    \"\"\"Multiply two numbers\"\"\""
  , "    return a * b"
  , ""
  , ""
  , "files = \x7b"
  , "    \"ag2\": \"AG has released 0.8.5 version on 2025-04-03\","
  , "\x7d"
  , ""
  , "@mcp.resource(\"server-file://\x7bname\x7d\")"
  , "def get_server_file(name: str) -> str:"
  , "    \"\"\"Get a file content\"\"\""
  , "    return files.get(name, f\"File not found: \x7bname\x7d\")"
  , ""
  , ""
  , "if __name__ == \"__main__\":"
  , "    parser = argparse.ArgumentParser(description=\"MCP Server\")"
  , "    parser.add_argument(\"transport\", choices=[\"stdio\", \"sse\"], help=\"Transport mode (stdio, sse or streamable-http)\")"
  , "    args = parser.parse_args()"
  , ""
  , "    mcp.run(transport=args.transport)"
  ]

/-- The string literal `mcp_server_file_content` (cell 4 of
`notebook/mcp/mcp_client.ipynb`): the triple-quoted Python literal joins its
lines with newlines and ends with a final newline before the closing quotes. -/
def mcp_server_file_content : String :=
  String.intercalate "\n" mcp_server_file_lines ++ "\n"

/-- The server-script generator cell:
`mcp_server_path = Path("mcp_server.py"); mcp_server_path.write_text(mcp_server_file_content)`.
The file system is modelled as a map from path to optional content; the write
sets the content at `"mcp_server.py"` and leaves every other path unchanged. -/
def write_server_script (fs : String → Option String) : String → Option String :=
  fun p => if p = "mcp_server.py" then some mcp_server_file_content else fs p

/-- The `MCPProxy` stub class of the unnamed MCP-proxy notebook: a constructor
storing three fields (`openapi_url`, `client_source_path`, `servers`) and
nothing else. `servers` is a list of dictionaries (e.g.
`[{"url": "https://api.infobip.com"}]`), modelled as association lists. -/
structure MCPProxy where
  openapi_url : String
  client_source_path : String
  servers : List (List (String × String))
deriving DecidableEq

/-- `MCPProxy.create(cls, openapi_url, client_source_path, servers)`: the
classmethod returns `MCPProxy(openapi_url=..., client_source_path=..., servers=...)`,
passing its three arguments through to the constructor unchanged. -/
def MCPProxy.create (openapi_url : String) (client_source_path : String)
    (servers : List (List (String × String))) : MCPProxy :=
  MCPProxy.mk openapi_url client_source_path servers

namespace McpClient

/-- The transport used by a client connection cell: a `stdio_client` pipe to a
subprocess, or an `sse_client` HTTP stream. -/
inductive Transport where
  | stdio
  | sse
deriving DecidableEq

/-- One awaited step on a client connection cell's session: entering the
transport's scoped block (`connect`), `session.initialize()`, listing the
session's tools (`session.list_tools()`, also performed by `create_toolkit`),
calling a named tool (`session.call_tool` / an agent tool call), and the
implicit close when the scoped block exits. -/
inductive SessionAction where
  | connect
  | init
  | listTools
  | callTool (tool : String)
  | close
deriving DecidableEq

/-- One client connection cell: its transport, the `read_timeout_seconds`
passed to `ClientSession` (`none` when the cell constructs `ClientSession`
without that argument), and the sequence of session actions the cell awaits. -/
structure ConnectionBlock where
  transport : Transport
  readTimeoutSeconds : Option Nat
  actions : List SessionAction
deriving DecidableEq

/-- Session steps of `create_toolkit_and_run(session)`: `create_toolkit`
enumerates the session's advertised tools, then the agent run issues the tool
calls its message requests. -/
def toolkitRunActions (calls : List String) : List SessionAction :=
  SessionAction.listTools :: calls.map SessionAction.callTool

/-- The stdio connection cell of `notebook/mcp/mcp_client.ipynb` (cell 8):
`ClientSession(read, write, read_timeout_seconds=timedelta(seconds=30))`,
then `await session.initialize()`, then `create_toolkit_and_run(session)`
whose message asks to add 123223 and 456789 and to get the file content for
"ag2". -/
def clientStdioBlock : ConnectionBlock :=
  ConnectionBlock.mk Transport.stdio (some 30)
    (SessionAction.connect :: SessionAction.init ::
      toolkitRunActions ["add", "get_server_file"] ++ [SessionAction.close])

/-- The SSE connection cell of `notebook/mcp/mcp_client.ipynb` (cell 10):
`ClientSession(*streams)` — no `read_timeout_seconds` argument — then
`await session.initialize()`, then `create_toolkit_and_run(session)`. -/
def clientSseBlock : ConnectionBlock :=
  ConnectionBlock.mk Transport.sse none
    (SessionAction.connect :: SessionAction.init ::
      toolkitRunActions ["add", "get_server_file"] ++ [SessionAction.close])

/-- The first stdio cell of the MCP-proxy notebook:
`ClientSession(read, write, read_timeout_seconds=timedelta(seconds=30))`,
`await session.initialize()`, `print_available_tools(session)`
(`session.list_tools()`), then `session.call_tool("add", {"a": 2, "b": 3})`. -/
def proxyToolsBlock : ConnectionBlock :=
  ConnectionBlock.mk Transport.stdio (some 30)
    [ SessionAction.connect, SessionAction.init, SessionAction.listTools
    , SessionAction.callTool "add", SessionAction.close ]

/-- The second stdio cell of the MCP-proxy notebook (toolkit run over
`main_tmp.py`, empty env): timeout 30 s, `initialize`, then
`create_toolkit_and_run` whose message asks to add 123223 and 456789. -/
def proxyStdioToolkitBlock : ConnectionBlock :=
  ConnectionBlock.mk Transport.stdio (some 30)
    (SessionAction.connect :: SessionAction.init ::
      toolkitRunActions ["add"] ++ [SessionAction.close])

/-- The SSE cell of the MCP-proxy notebook: `ClientSession(*streams)` — no
`read_timeout_seconds` argument — then `initialize` and
`create_toolkit_and_run`. -/
def proxySseToolkitBlock : ConnectionBlock :=
  ConnectionBlock.mk Transport.sse none
    (SessionAction.connect :: SessionAction.init ::
      toolkitRunActions ["add"] ++ [SessionAction.close])

/-- The final stdio cell of the MCP-proxy notebook (env carrying `API_KEY`
and `OAUTH2_TOKEN` placeholders): timeout 30 s, `initialize`, then
`create_toolkit_and_run` whose message asks to add 123223 and 456789. -/
def proxySecretsBlock : ConnectionBlock :=
  ConnectionBlock.mk Transport.stdio (some 30)
    (SessionAction.connect :: SessionAction.init ::
      toolkitRunActions ["add"] ++ [SessionAction.close])

/-- Every client connection cell of the two notebooks. -/
def notebookConnectionBlocks : List ConnectionBlock :=
  [ clientStdioBlock, clientSseBlock
  , proxyToolsBlock, proxyStdioToolkitBlock, proxySseToolkitBlock
  , proxySecretsBlock ]

/-- Whether a session action is a tool-listing or a tool-call request. -/
def isToolUse : SessionAction → Bool
  | SessionAction.listTools => true
  | SessionAction.callTool _ => true
  | _ => false

/-- Checks that no tool-listing or tool-call action occurs before the first
`init` in an action sequence. -/
def noUseBeforeInit : List SessionAction → Bool
  | [] => true
  | SessionAction.init :: _ => true
  | a :: rest => if isToolUse a then false else noUseBeforeInit rest

end McpClient

/-- Claim C1: for every pair of integers a and b, invoking the `add` tool
returns their sum a + b; in particular, for inputs a=2, b=3 it returns 5, and
for inputs a=123223, b=456789 it returns 580012. -/
theorem add_tool_returns_sum :
    (∀ a b : Int, McpServer.add a b = a + b) ∧
    McpServer.add 2 3 = 5 ∧ McpServer.add 123223 456789 = 580012 :=
  ⟨fun _ _ => rfl, rfl, rfl⟩

/-- Claim C2: requesting the resource `server-file://ag2` (calling
`get_server_file` with name="ag2") returns exactly the string
"AG has released 0.8.5 version on 2025-04-03". -/
theorem server_file_ag2_content :
    McpServer.get_server_file "ag2" =
      "AG has released 0.8.5 version on 2025-04-03" := by
  decide

/-- Claim C3: for every name that is not a key of the server's file table,
`get_server_file` does not raise an error but returns the in-band string
"File not found: " followed by the requested name. -/
theorem server_file_not_found_message (name : String)
    (h : McpServer.files.lookup name = none) :
    McpServer.get_server_file name = "File not found: " ++ name := by
  unfold McpServer.get_server_file
  rw [h]
  rfl

/-- Witness for claim C3 at the concrete name "unknown". -/
theorem server_file_not_found_message_witness :
    McpServer.files.lookup "unknown" = none ∧
    McpServer.get_server_file "unknown" = "File not found: unknown" :=
  ⟨by decide, server_file_not_found_message "unknown" (by decide)⟩

/-- Claim C4: for every choice of arguments url, path, and servers,
`MCPProxy.create(url, path, servers)` returns an `MCPProxy` whose three stored
fields equal the three arguments, and nothing else: the result is exactly the
constructor applied to the three arguments. -/
theorem mcp_proxy_create_stores_fields :
    ∀ (url path : String) (servers : List (List (String × String))),
      MCPProxy.create url path servers = MCPProxy.mk url path servers ∧
      (MCPProxy.create url path servers).openapi_url = url ∧
      (MCPProxy.create url path servers).client_source_path = path ∧
      (MCPProxy.create url path servers).servers = servers :=
  fun _ _ _ => ⟨rfl, rfl, rfl, rfl⟩

/-- Claim C5 (evaluation at the failing input): the generated server's
positional transport argument, whose argparse `choices` list is
`["stdio", "sse"]`, accepts "stdio" and "sse" but rejects "streamable-http"
with an argument error — although the argument's own help text advertises
"streamable-http" as a transport mode. -/
theorem transport_argument_rejects_streamable_http :
    McpServer.parse_transport "stdio" = Except.ok "stdio" ∧
    McpServer.parse_transport "sse" = Except.ok "sse" ∧
    McpServer.parse_transport "streamable-http" =
      Except.error ("argument transport: invalid choice: " ++ "streamable-http") :=
  ⟨rfl, rfl, rfl⟩

/-- Counterexample for claim C6: it is not the case that every `ClientSession`
constructed by the client cells is passed a read timeout of 30 seconds — the
SSE cells construct `ClientSession(*streams)` with no timeout argument. -/
theorem not_every_session_has_thirty_second_timeout :
    ¬ (∀ b ∈ McpClient.notebookConnectionBlocks,
        b.readTimeoutSeconds = some 30) := by
  decide

/-- Claim C6 (amended): every `ClientSession` constructed by a stdio-transport
connection cell is passed `read_timeout_seconds` of exactly 30 seconds; the
SSE cells pass no explicit timeout. -/
theorem stdio_sessions_have_thirty_second_timeout :
    ∀ b ∈ McpClient.notebookConnectionBlocks,
      b.transport = McpClient.Transport.stdio →
      b.readTimeoutSeconds = some 30 := by
  decide

/-- Witness for the amended claim C6 at the stdio cell of the client
notebook. -/
theorem stdio_sessions_have_thirty_second_timeout_witness :
    McpClient.clientStdioBlock ∈ McpClient.notebookConnectionBlocks ∧
    McpClient.clientStdioBlock.readTimeoutSeconds = some 30 :=
  ⟨by decide,
   stdio_sessions_have_thirty_second_timeout McpClient.clientStdioBlock
     (by decide) (by decide)⟩

/-- Claim C7: in every client connection cell, for every transport, the
session's initialize handshake completes before any tool-listing or tool-call
request is issued on that session. -/
theorem no_tool_use_before_init_in_blocks :
    ∀ b ∈ McpClient.notebookConnectionBlocks,
      McpClient.noUseBeforeInit b.actions = true := by
  decide

/-- Witness for claim C7 at the stdio cell of the client notebook. -/
theorem no_tool_use_before_init_in_blocks_witness :
    McpClient.clientStdioBlock ∈ McpClient.notebookConnectionBlocks ∧
    McpClient.noUseBeforeInit McpClient.clientStdioBlock.actions = true :=
  ⟨by decide,
   no_tool_use_before_init_in_blocks McpClient.clientStdioBlock (by decide)⟩

/-- Claim C8: the server script generator takes no input and is deterministic:
from any file-system state, it writes `mcp_server.py` with content equal to
the fixed string literal `mcp_server_file_content`, any two executions write
identical content, and no other path is changed. -/
theorem write_server_script_deterministic :
    ∀ fs fs₂ : String → Option String,
      write_server_script fs "mcp_server.py" = some mcp_server_file_content ∧
      write_server_script fs "mcp_server.py" =
        write_server_script fs₂ "mcp_server.py" ∧
      ∀ p : String, p ≠ "mcp_server.py" → write_server_script fs p = fs p := by
  intro fs fs₂
  refine ⟨by simp [write_server_script], by simp [write_server_script], ?_⟩
  intro p hp
  simp [write_server_script, hp]

/-- Witness for claim C8 at the empty file-system state and the path
"other.py". -/
theorem write_server_script_deterministic_witness :
    write_server_script (fun _ => none) "mcp_server.py" =
      some mcp_server_file_content ∧
    ("other.py" : String) ≠ "mcp_server.py" ∧
    write_server_script (fun _ => none) "other.py" = none :=
  ⟨(write_server_script_deterministic (fun _ => none) (fun _ => none)).1,
   by decide,
   (write_server_script_deterministic (fun _ => none) (fun _ => none)).2.2
     "other.py" (by decide)⟩

/-- Claim C9: for every pair of integers a and b, invoking the `multiply` tool
returns their product a * b. -/
theorem multiply_tool_returns_product :
    ∀ a b : Int, McpServer.multiply a b = a * b :=
  fun _ _ => rfl

/-- Claim C10: `get_server_file` is total: for every string name it returns a
string — the table entry when the name is a key, and the in-band
"File not found: " message otherwise — and never fails, because the lookup
carries a default value. -/
theorem get_server_file_total :
    ∀ name : String,
      (∃ content, McpServer.files.lookup name = some content ∧
        McpServer.get_server_file name = content) ∨
      (McpServer.files.lookup name = none ∧
        McpServer.get_server_file name = "File not found: " ++ name) := by
  intro name
  cases h : McpServer.files.lookup name with
  | none =>
      refine Or.inr ⟨rfl, ?_⟩
      unfold McpServer.get_server_file
      rw [h]
      rfl
  | some v =>
      refine Or.inl ⟨v, rfl, ?_⟩
      unfold McpServer.get_server_file
      rw [h]
      rfl
